import Mathlib

/-!
Verification of the swept collision engine of CPong (src/main.c).

Embedding conventions:
* C floats are modelled as exact rationals; machine ints as integers.
* The C code compares two square roots (Point_getDistance) only with <.
  The square root is strictly monotone on nonnegative reals, so the
  comparison is embedded as a comparison of the radicands.
* Out-parameters written through pointers are modelled by passing the
  initial value of the pointee and returning the possibly updated value.
* The internal variables collisionVertex (getPaddleCollision) and
  testedVertex (getWallCollision) are exposed as a third component of the
  result so that snap-to-contact properties can be stated about them.
-/

namespace CPong

/-- WINDOW_WIDTH from main.c. -/
def WINDOW_WIDTH : ℚ := 800

/-- WINDOW_HEIGHT from main.c. -/
def WINDOW_HEIGHT : ℚ := 600

/-- BALL_SIZE from main.c. -/
def BALL_SIZE : ℚ := 20

/-- PADDLE_WIDTH from main.c. -/
def PADDLE_WIDTH : ℚ := 25

/-- PADDLE_HEIGHT from main.c. -/
def PADDLE_HEIGHT : ℚ := 100

/-- PADDLE_SPEED from main.c. -/
def PADDLE_SPEED : ℚ := 8

/-- BALL_SPEED from main.c. -/
def BALL_SPEED : ℚ := 5

/-- The Side enum of main.c: TOP, RIGHT, BOTTOM, LEFT with codes 0..3. -/
inductive Side where
  | TOP
  | RIGHT
  | BOTTOM
  | LEFT
deriving DecidableEq

/-- The integer value a Side enum constant has in C. -/
def Side.code : Side → ℤ
  | .TOP => 0
  | .RIGHT => 1
  | .BOTTOM => 2
  | .LEFT => 3

/-- Point: a 2D float coordinate (sfVector2f). -/
structure Point where
  x : ℚ
  y : ℚ
deriving DecidableEq

/-- Line: an ordered pair of points. -/
structure Line where
  a : Point
  b : Point
deriving DecidableEq

/-- Ball: top-left position and per-frame speed. -/
structure Ball where
  position : Point
  speed : Point
deriving DecidableEq

/-- Paddle: top-left position and score. -/
structure Paddle where
  position : Point
  score : ℤ
deriving DecidableEq

/-- Collision: result record of the two resolvers. -/
structure Collision where
  collides : Bool
  position : Point
  side : Side
deriving DecidableEq

/-- The radicand actually computed by Point_getDistance (main.c line 350):
sqrt(pow(b.x - a.x, 2) + (b.y - a.y, 2)).  The second addend is a comma
expression and evaluates to the constant 2, so the function returns
sqrt((b.x - a.x)^2 + 2).  The resolvers use the result only in strict
comparisons, which coincide with strict comparisons of this radicand. -/
def Point_getDistanceRadicand (a b : Point) : ℚ :=
  (b.x - a.x) ^ 2 + 2

/-- Modelled from the spec: the square of the Euclidean distance
sqrt((b.x - a.x)^2 + (b.y - a.y)^2) that the spec says Point_getDistance
computes.  Kept squared so it stays rational-valued; comparing squares is
equivalent to comparing the nonnegative distances themselves. -/
def specEuclidSqDist (a b : Point) : ℚ :=
  (b.x - a.x) ^ 2 + (b.y - a.y) ^ 2

/-- Ball_getVertex from main.c: clockwise vertices 0 = top-left,
1 = top-right, 2 = bottom-right, 3 = bottom-left; any other index
returns (0, 0). -/
def Ball_getVertex (ball : Ball) (vertex : ℤ) : Point :=
  if vertex = 0 then ball.position
  else if vertex = 1 then ⟨ball.position.x + BALL_SIZE, ball.position.y⟩
  else if vertex = 2 then ⟨ball.position.x + BALL_SIZE, ball.position.y + BALL_SIZE⟩
  else if vertex = 3 then ⟨ball.position.x, ball.position.y + BALL_SIZE⟩
  else ⟨0, 0⟩

/-- Ball_getSide from main.c; an argument outside the enum codes returns the
degenerate zero line. -/
def Ball_getSide (ball : Ball) (side : ℤ) : Line :=
  if side = 0 then ⟨Ball_getVertex ball 0, Ball_getVertex ball 1⟩
  else if side = 1 then ⟨Ball_getVertex ball 1, Ball_getVertex ball 2⟩
  else if side = 2 then ⟨Ball_getVertex ball 2, Ball_getVertex ball 3⟩
  else if side = 3 then ⟨Ball_getVertex ball 3, Ball_getVertex ball 0⟩
  else ⟨⟨0, 0⟩, ⟨0, 0⟩⟩

/-- Ball_getBound from main.c; an argument outside the enum codes returns 0. -/
def Ball_getBound (ball : Ball) (side : ℤ) : ℚ :=
  if side = 0 then ball.position.y
  else if side = 1 then ball.position.x + BALL_SIZE
  else if side = 2 then ball.position.y + BALL_SIZE
  else if side = 3 then ball.position.x
  else 0

/-- Paddle_getVertex from main.c. -/
def Paddle_getVertex (paddle : Paddle) (vertex : ℤ) : Point :=
  if vertex = 0 then paddle.position
  else if vertex = 1 then ⟨paddle.position.x + PADDLE_WIDTH, paddle.position.y⟩
  else if vertex = 2 then ⟨paddle.position.x + PADDLE_WIDTH, paddle.position.y + PADDLE_HEIGHT⟩
  else if vertex = 3 then ⟨paddle.position.x, paddle.position.y + PADDLE_HEIGHT⟩
  else ⟨0, 0⟩

/-- Paddle_getSide from main.c. -/
def Paddle_getSide (paddle : Paddle) (side : ℤ) : Line :=
  if side = 0 then ⟨Paddle_getVertex paddle 0, Paddle_getVertex paddle 1⟩
  else if side = 1 then ⟨Paddle_getVertex paddle 1, Paddle_getVertex paddle 2⟩
  else if side = 2 then ⟨Paddle_getVertex paddle 2, Paddle_getVertex paddle 3⟩
  else if side = 3 then ⟨Paddle_getVertex paddle 3, Paddle_getVertex paddle 0⟩
  else ⟨⟨0, 0⟩, ⟨0, 0⟩⟩

/-- Paddle_getBound from main.c. -/
def Paddle_getBound (paddle : Paddle) (side : ℤ) : ℚ :=
  if side = 0 then paddle.position.y
  else if side = 1 then paddle.position.x + PADDLE_WIDTH
  else if side = 2 then paddle.position.y + PADDLE_HEIGHT
  else if side = 3 then paddle.position.x
  else 0

/-- The snap-to-contact back-computation shared by the tails of both
resolvers (main.c lines 601-604 and 677-680): place a reference ball at the
contact point, read off where the colliding vertex of that reference ball
lands, and mirror the offset back through the contact point. -/
def snapBack (contact : Point) (vertex : ℤ) : Point :=
  let originReference : Ball := ⟨contact, ⟨0, 0⟩⟩
  let backToOrigin := Ball_getVertex originReference vertex
  ⟨contact.x - (backToOrigin.x - contact.x), contact.y - (backToOrigin.y - contact.y)⟩

/-- Outcome of testing one swept ball vertex inside a resolver loop:
the loop-exiting range failure, the continue-style line failure, or a hit. -/
inductive SweepTest where
  | rangeFail
  | lineFail
  | hit (p : Point)
deriving DecidableEq

/-- One iteration of the horizontal test loop of getPaddleCollision
(main.c lines 532-556) for ball vertex v against the paddle side pSide. -/
def hTestOne (ball : Ball) (paddle : Paddle) (slope : ℚ) (pSide : Side) (v : ℤ) : SweepTest :=
  let vertexPos := Ball_getVertex ball v
  let nextPos : Point := ⟨vertexPos.x + ball.speed.x, vertexPos.y + ball.speed.y⟩
  let ballMinX := min vertexPos.x nextPos.x
  let ballMaxX := max vertexPos.x nextPos.x
  let paddleX := Paddle_getBound paddle pSide.code
  if ¬(paddleX ≥ ballMinX ∧ paddleX ≤ ballMaxX) then .rangeFail
  else
    let yIncp := vertexPos.y - vertexPos.x * slope
    let paddleMinY := Paddle_getBound paddle Side.TOP.code
    let paddleMaxY := Paddle_getBound paddle Side.BOTTOM.code
    let ballColY := paddleX * slope + yIncp
    if ¬(ballColY ≥ paddleMinY ∧ ballColY ≤ paddleMaxY) then .lineFail
    else .hit ⟨paddleX, ballColY⟩

/-- One iteration of the vertical test loop of getPaddleCollision
(main.c lines 559-585) for ball vertex v against the paddle side pSide. -/
def vTestOne (ball : Ball) (paddle : Paddle) (slope : ℚ) (pSide : Side) (v : ℤ) : SweepTest :=
  let vertexPos := Ball_getVertex ball v
  let nextPos : Point := ⟨vertexPos.x + ball.speed.x, vertexPos.y + ball.speed.y⟩
  let ballMinY := min vertexPos.y nextPos.y
  let ballMaxY := max vertexPos.y nextPos.y
  let paddleY := Paddle_getBound paddle pSide.code
  if ¬(paddleY ≥ ballMinY ∧ paddleY ≤ ballMaxY) then .rangeFail
  else
    let yIncp := vertexPos.y - vertexPos.x * slope
    let paddleMinX := Paddle_getBound paddle Side.LEFT.code
    let paddleMaxX := Paddle_getBound paddle Side.RIGHT.code
    let ballColX := (paddleY - yIncp) / slope
    if ¬(ballColX ≥ paddleMinX ∧ ballColX ≤ paddleMaxX) then .lineFail
    else .hit ⟨ballColX, paddleY⟩

/-- A Collision value recording no collision, as initialised in main.c. -/
def noCollision : Collision := ⟨false, ⟨0, 0⟩, Side.TOP⟩

/-- The horizontal test loop of getPaddleCollision: at most two iterations
over the vertices v0 and v1; a range failure breaks out of the loop, a line
failure continues with the next vertex, a hit records the collision and
breaks.  Returns the collision found (if any) together with the value the
loop left in collisionVertices[0]. -/
def hLoop (ball : Ball) (paddle : Paddle) (slope : ℚ) (pSide : Side) (v0 v1 : ℤ) :
    Collision × ℤ :=
  match hTestOne ball paddle slope pSide v0 with
  | .rangeFail => (noCollision, v0)
  | .hit p => (⟨true, p, pSide⟩, v0)
  | .lineFail =>
    match hTestOne ball paddle slope pSide v1 with
    | .rangeFail => (noCollision, v1)
    | .hit p => (⟨true, p, pSide⟩, v1)
    | .lineFail => (noCollision, v1)

/-- The vertical test loop of getPaddleCollision, guarded by the slope = 0
break at the top of the loop body; collisionVertices[1] is left unwritten
by C in that case and is modelled as 0 (it is never read unless the loop
records a collision). -/
def vLoop (ball : Ball) (paddle : Paddle) (slope : ℚ) (pSide : Side) (v0 v1 : ℤ) :
    Collision × ℤ :=
  if slope = 0 then (noCollision, 0)
  else
    match vTestOne ball paddle slope pSide v0 with
    | .rangeFail => (noCollision, v0)
    | .hit p => (⟨true, p, pSide⟩, v0)
    | .lineFail =>
      match vTestOne ball paddle slope pSide v1 with
      | .rangeFail => (noCollision, v1)
      | .hit p => (⟨true, p, pSide⟩, v1)
      | .lineFail => (noCollision, v1)

/-- Selection of the closest collision occurrence (main.c lines 587-597).
When both axes report a collision the code compares the two
Point_getDistance results with <; this is embedded as the radicand
comparison (see Point_getDistanceRadicand). -/
def selectCol (ball : Ball) (hCol vCol : Collision) (cv0 cv1 : ℤ) : Collision × ℤ :=
  if hCol.collides ∧ vCol.collides then
    if Point_getDistanceRadicand (Ball_getVertex ball cv0) hCol.position <
        Point_getDistanceRadicand (Ball_getVertex ball cv1) vCol.position then
      (hCol, cv0)
    else
      (vCol, cv1)
  else if hCol.collides then (hCol, cv0)
  else if vCol.collides then (vCol, cv1)
  else (noCollision, 0)

/-- getPaddleCollision from main.c (lines 475-609).  The paddleEdges array
computed by the C code is never read after being filled and is omitted.
Result: the Collision return value, the final value of the newPosition
out-parameter (given its initial pointee value), and the internal
collisionVertex variable. -/
def getPaddleCollision (ball : Ball) (paddle : Paddle) (newPosition : Point) :
    Collision × Point × ℤ :=
  if ball.speed.x = 0 then (noCollision, newPosition, 0)
  else
    let slope := ball.speed.y / ball.speed.x
    if ball.speed.x ≥ 0 ∧ Ball_getBound ball Side.LEFT.code > Paddle_getBound paddle Side.RIGHT.code then
      (noCollision, newPosition, 0)
    else if ¬(ball.speed.x ≥ 0) ∧ Ball_getBound ball Side.RIGHT.code < Paddle_getBound paddle Side.LEFT.code then
      (noCollision, newPosition, 0)
    else
      let hv0 : ℤ := if ball.speed.x ≥ 0 then 1 else 0
      let hv1 : ℤ := if ball.speed.x ≥ 0 then 2 else 3
      let pSide0 : Side := if ball.speed.x ≥ 0 then Side.LEFT else Side.RIGHT
      if ball.speed.y ≥ 0 ∧ Ball_getBound ball Side.TOP.code > Paddle_getBound paddle Side.BOTTOM.code then
        (noCollision, newPosition, 0)
      else if ¬(ball.speed.y ≥ 0) ∧ Ball_getBound ball Side.BOTTOM.code < Paddle_getBound paddle Side.TOP.code then
        (noCollision, newPosition, 0)
      else
        let vv0 : ℤ := if ball.speed.y ≥ 0 then 2 else 0
        let vv1 : ℤ := if ball.speed.y ≥ 0 then 3 else 1
        let pSide1 : Side := if ball.speed.y ≥ 0 then Side.TOP else Side.BOTTOM
        let hres := hLoop ball paddle slope pSide0 hv0 hv1
        let vres := vLoop ball paddle slope pSide1 vv0 vv1
        let sel := selectCol ball hres.1 vres.1 hres.2 vres.2
        if sel.1.collides then (sel.1, snapBack sel.1.position sel.2, sel.2)
        else (sel.1, newPosition, sel.2)

/-- The wall in the horizontal direction of travel (main.c lines 620-626). -/
def wallHBound (ball : Ball) : ℚ :=
  if ball.speed.x ≥ 0 then WINDOW_WIDTH else 0

/-- The side tag of the wall in the horizontal direction of travel. -/
def wallHSide (ball : Ball) : Side :=
  if ball.speed.x ≥ 0 then Side.RIGHT else Side.LEFT

/-- The wall in the vertical direction of travel (main.c lines 628-635). -/
def wallVBound (ball : Ball) : ℚ :=
  if ball.speed.y ≥ 0 then WINDOW_HEIGHT else 0

/-- The side tag of the wall in the vertical direction of travel. -/
def wallVSide (ball : Ball) : Side :=
  if ball.speed.y ≥ 0 then Side.BOTTOM else Side.TOP

/-- The single tested ball vertex of getWallCollision, selected from the
combination of the horizontal and vertical wall sides
(main.c lines 637-640). -/
def wallTestedVertex (ball : Ball) : ℤ :=
  if wallHSide ball = Side.RIGHT ∧ wallVSide ball = Side.BOTTOM then 2
  else if wallHSide ball = Side.LEFT ∧ wallVSide ball = Side.BOTTOM then 3
  else if wallHSide ball = Side.RIGHT ∧ wallVSide ball = Side.TOP then 1
  else 0

/-- getWallCollision from main.c (lines 612-684).  Result components as in
getPaddleCollision, the third being the internal testedVertex variable. -/
def getWallCollision (ball : Ball) (newPosition : Point) : Collision × Point × ℤ :=
  let testedVertex := wallTestedVertex ball
  if ball.speed.x = 0 then (noCollision, newPosition, testedVertex)
  else
    let slope := ball.speed.y / ball.speed.x
    let vertexPos := Ball_getVertex ball testedVertex
    let nextPos : Point := ⟨vertexPos.x + ball.speed.x, vertexPos.y + ball.speed.y⟩
    let yIncp := vertexPos.y - vertexPos.x * slope
    let horizontalCol : Collision :=
      if min vertexPos.x nextPos.x ≤ wallHBound ball ∧ wallHBound ball ≤ max vertexPos.x nextPos.x then
        ⟨true, ⟨wallHBound ball, slope * wallHBound ball + yIncp⟩, wallHSide ball⟩
      else noCollision
    let verticalCol : Collision :=
      if min vertexPos.y nextPos.y ≤ wallVBound ball ∧ wallVBound ball ≤ max vertexPos.y nextPos.y then
        ⟨true, ⟨(wallVBound ball - yIncp) / slope, wallVBound ball⟩, wallVSide ball⟩
      else noCollision
    let returnVal : Collision :=
      if horizontalCol.collides ∧ verticalCol.collides then
        if Point_getDistanceRadicand vertexPos horizontalCol.position <
            Point_getDistanceRadicand vertexPos verticalCol.position then
          horizontalCol
        else verticalCol
      else if horizontalCol.collides then horizontalCol
      else if verticalCol.collides then verticalCol
      else noCollision
    if returnVal.collides then (returnVal, snapBack returnVal.position testedVertex, testedVertex)
    else (returnVal, newPosition, testedVertex)

/-- The whole game state the round loop mutates. -/
structure GameState where
  ball : Ball
  p1 : Paddle
  p2 : Paddle
  gameState : ℤ
deriving DecidableEq

/-- The paddle resolver call of the round loop (main.c lines 245-248):
the ball is tested against p2 when it heads right, against p1 otherwise;
the ballNextA out-parameter starts as (0, 0). -/
def framePaddleRes (s : GameState) : Collision × Point × ℤ :=
  if s.ball.speed.x ≥ 0 then getPaddleCollision s.ball s.p2 ⟨0, 0⟩
  else getPaddleCollision s.ball s.p1 ⟨0, 0⟩

/-- The Collision produced by the frame's paddle resolver call. -/
def framePaddleCol (s : GameState) : Collision :=
  (framePaddleRes s).1

/-- The wall resolver call of the round loop (main.c lines 251-252). -/
def frameWallRes (s : GameState) : Collision × Point × ℤ :=
  getWallCollision s.ball ⟨0, 0⟩

/-- The Collision produced by the frame's wall resolver call. -/
def frameWallCol (s : GameState) : Collision :=
  (frameWallRes s).1

/-- The velocity.y clamp applied after every paddle hit
(main.c lines 265-268). -/
def speedClampY (sx sy : ℚ) : ℚ :=
  if sy ≥ max (sx * 3) (sx * (-3)) then max (sx * 3) (sx * (-3))
  else if sy ≤ min (sx * 3) (sx * (-3)) then min (sx * 3) (sx * (-3))
  else sy

/-- The paddle collision response of the round loop (main.c lines 255-268):
snap the ball to ballNextA, reflect and accelerate speed.x with the centre
offset deflection on LEFT/RIGHT hits (the LEFT branch reads p2, the RIGHT
branch reads p1), invert speed.y otherwise, then clamp speed.y. -/
def paddleResponse (s : GameState) (col : Collision) (ballNextA : Point) : Ball :=
  let ball := s.ball
  let speed1 : Point :=
    if col.side = Side.LEFT then
      ⟨ball.speed.x * (-1) - 1 / 2,
        ball.speed.y + (ballNextA.y + 1 / 2 * BALL_SIZE - (s.p2.position.y + 1 / 2 * PADDLE_HEIGHT)) / 5⟩
    else if col.side = Side.RIGHT then
      ⟨ball.speed.x * (-1) + 1 / 2,
        ball.speed.y + (ballNextA.y + 1 / 2 * BALL_SIZE - (s.p1.position.y + 1 / 2 * PADDLE_HEIGHT)) / 5⟩
    else ⟨ball.speed.x, ball.speed.y * (-1)⟩
  ⟨ballNextA, ⟨speed1.x, speedClampY speed1.x speed1.y⟩⟩

/-- The end-of-frame safety clamp on the ball's y position
(main.c lines 288-289). -/
def yClamp (y : ℚ) : ℚ :=
  if y ≤ 0 then 1 / 10
  else if y ≥ WINDOW_HEIGHT then WINDOW_HEIGHT - BALL_SIZE - 1 / 10
  else y

/-- One pass through the collision response portion of the round loop state
(main.c lines 244-290): resolver calls, the paddle / wall / unobstructed
response chain, and the final y clamp.  The paddle input handling that
precedes it (lines 185-242) only moves the paddles and pre-adjusts speed.y
on an overlap with a moving paddle; its outcome is part of the state this
function receives. -/
def integrate (s : GameState) : GameState :=
  let pc := framePaddleCol s
  let ballNextA := (framePaddleRes s).2.1
  let wc := frameWallCol s
  let afterCol : GameState :=
    if pc.collides then
      { s with ball := paddleResponse s pc ballNextA }
    else if wc.collides then
      if wc.side = Side.TOP ∨ wc.side = Side.BOTTOM then
        { s with ball := { s.ball with speed := ⟨s.ball.speed.x, s.ball.speed.y * (-1)⟩ } }
      else if wc.side = Side.LEFT then
        { s with p2 := { s.p2 with score := s.p2.score + 1 }, gameState := s.gameState + 1 }
      else if wc.side = Side.RIGHT then
        { s with p1 := { s.p1 with score := s.p1.score + 1 }, gameState := s.gameState + 1 }
      else s
    else
      { s with ball := { s.ball with position :=
          ⟨s.ball.position.x + s.ball.speed.x, s.ball.position.y + s.ball.speed.y⟩ } }
  { afterCol with ball := { afterCol.ball with position :=
      ⟨afterCol.ball.position.x, yClamp afterCol.ball.position.y⟩ } }

/-- Modelled from the spec: the single ball vertex that leads in both the
horizontal and the vertical direction of travel, chosen by the combination
of the velocity signs. -/
def leadingVertex (ball : Ball) : ℤ :=
  if ball.speed.x ≥ 0 ∧ ball.speed.y ≥ 0 then 2
  else if ¬(ball.speed.x ≥ 0) ∧ ball.speed.y ≥ 0 then 3
  else if ball.speed.x ≥ 0 ∧ ¬(ball.speed.y ≥ 0) then 1
  else 0

/-- Modelled from the spec: the vertical arena boundary line lying in the
ball's horizontal direction of travel. -/
def towardXBound (ball : Ball) : ℚ :=
  if ball.speed.x ≥ 0 then 800 else 0

/-- Modelled from the spec: the horizontal arena boundary line lying in the
ball's vertical direction of travel. -/
def towardYBound (ball : Ball) : ℚ :=
  if ball.speed.y ≥ 0 then 600 else 0

/-- Modelled from the spec: the swept segment from p to p + d crosses the
vertical line x = c within the frame's displacement. -/
def segCrossesX (p d : Point) (c : ℚ) : Prop :=
  min p.x (p.x + d.x) ≤ c ∧ c ≤ max p.x (p.x + d.x)

/-- Modelled from the spec: the swept segment from p to p + d crosses the
horizontal line y = c within the frame's displacement. -/
def segCrossesY (p d : Point) (c : ℚ) : Prop :=
  min p.y (p.y + d.y) ≤ c ∧ c ≤ max p.y (p.y + d.y)

instance (p d : Point) (c : ℚ) : Decidable (segCrossesX p d c) := by
  unfold segCrossesX; infer_instance

instance (p d : Point) (c : ℚ) : Decidable (segCrossesY p d c) := by
  unfold segCrossesY; infer_instance

end CPong

namespace CPong

/- ## Helper lemmas -/

/-- The end-of-frame y clamp lands strictly inside the vertical arena bounds. -/
lemma yClamp_mem_open (y : ℚ) : 0 < yClamp y ∧ yClamp y < WINDOW_HEIGHT := by
  unfold yClamp WINDOW_HEIGHT BALL_SIZE
  split_ifs with h1 h2
  · norm_num
  · norm_num
  · push_neg at h1 h2
    exact ⟨h1, h2⟩

/-- The post-paddle-hit clamp keeps the vertical speed within three times
the magnitude of the horizontal speed. -/
lemma abs_speedClampY_le (sx sy : ℚ) : |speedClampY sx sy| ≤ 3 * |sx| := by
  have hmax : max (sx * 3) (sx * (-3)) = 3 * |sx| := by
    rcases le_total 0 sx with h | h
    · rw [abs_of_nonneg h, max_eq_left (by nlinarith)]; ring
    · rw [abs_of_nonpos h, max_eq_right (by nlinarith)]; ring
  have hmin : min (sx * 3) (sx * (-3)) = -(3 * |sx|) := by
    rcases le_total 0 sx with h | h
    · rw [abs_of_nonneg h, min_eq_right (by nlinarith)]; ring
    · rw [abs_of_nonpos h, min_eq_left (by nlinarith)]; ring
  have habs : (0 : ℚ) ≤ 3 * |sx| := by positivity
  unfold speedClampY
  rw [hmax, hmin]
  split_ifs with h1 h2
  · rw [abs_of_nonneg habs]
  · rw [abs_neg, abs_of_nonneg habs]
  · push_neg at h1 h2
    rw [abs_le]
    exact ⟨le_of_lt h2, le_of_lt h1⟩

/- ## C10 -/

/-- C10: the geometry queries are total: any vertex index or side code
outside 0..3 makes Ball_getVertex and Paddle_getVertex return the point
(0, 0), the side queries return the degenerate zero line, and the bound
queries return 0, instead of failing. -/
theorem geometry_queries_total_default (b : Ball) (p : Paddle) (v : ℤ)
    (h0 : v ≠ 0) (h1 : v ≠ 1) (h2 : v ≠ 2) (h3 : v ≠ 3) :
    Ball_getVertex b v = ⟨0, 0⟩ ∧ Paddle_getVertex p v = ⟨0, 0⟩ ∧
    Ball_getSide b v = ⟨⟨0, 0⟩, ⟨0, 0⟩⟩ ∧ Paddle_getSide p v = ⟨⟨0, 0⟩, ⟨0, 0⟩⟩ ∧
    Ball_getBound b v = 0 ∧ Paddle_getBound p v = 0 := by
  simp [Ball_getVertex, Paddle_getVertex, Ball_getSide, Paddle_getSide, Ball_getBound,
    Paddle_getBound, h0, h1, h2, h3]

/-- Witness for C10 at the out-of-range index 7. -/
theorem geometry_queries_total_default_witness :
    Ball_getVertex ⟨⟨1, 2⟩, ⟨3, 4⟩⟩ 7 = ⟨0, 0⟩ ∧ Paddle_getVertex ⟨⟨5, 6⟩, 0⟩ 7 = ⟨0, 0⟩ ∧
    Ball_getSide ⟨⟨1, 2⟩, ⟨3, 4⟩⟩ 7 = ⟨⟨0, 0⟩, ⟨0, 0⟩⟩ ∧
    Paddle_getSide ⟨⟨5, 6⟩, 0⟩ 7 = ⟨⟨0, 0⟩, ⟨0, 0⟩⟩ ∧
    Ball_getBound ⟨⟨1, 2⟩, ⟨3, 4⟩⟩ 7 = 0 ∧ Paddle_getBound ⟨⟨5, 6⟩, 0⟩ 7 = 0 :=
  geometry_queries_total_default _ _ 7 (by decide) (by decide) (by decide) (by decide)

/- ## C9 -/

/-- C9: after the final safety clamp of every round-loop frame, the ball's
y position lies strictly inside the vertical arena bounds, whatever the
resolvers reported. -/
theorem ball_y_strictly_inside_after_frame (s : GameState) :
    0 < (integrate s).ball.position.y ∧ (integrate s).ball.position.y < WINDOW_HEIGHT := by
  simp only [integrate]
  exact yClamp_mem_open _

/- ## C5 -/

/-- C5: a ball whose horizontal speed is exactly zero makes both resolvers
report no collision, via the early return that guards the slope division. -/
theorem zero_vx_no_collision (ball : Ball) (paddle : Paddle) (p0 : Point)
    (h : ball.speed.x = 0) :
    (getPaddleCollision ball paddle p0).1.collides = false ∧
    (getWallCollision ball p0).1.collides = false := by
  constructor
  · simp [getPaddleCollision, h, noCollision]
  · simp [getWallCollision, h, noCollision]

/-- Witness for C5 with a purely vertical velocity. -/
theorem zero_vx_no_collision_witness :
    (getPaddleCollision ⟨⟨100, 100⟩, ⟨0, 7⟩⟩ ⟨⟨700, 250⟩, 0⟩ ⟨0, 0⟩).1.collides = false ∧
    (getWallCollision ⟨⟨100, 100⟩, ⟨0, 7⟩⟩ ⟨0, 0⟩).1.collides = false :=
  zero_vx_no_collision _ _ _ rfl

/- ## C4 -/

/-- C4 (code bug): Point_getDistance does not compute the Euclidean
distance.  Its source reads sqrt(pow(b.x - a.x, 2) + (b.y - a.y, 2)); the
intended second pow turned into a comma expression, so the radicand is
(b.x - a.x)^2 + 2 instead of (b.x - a.x)^2 + (b.y - a.y)^2.  At a = (0, 0),
b = (0, 5) the code returns sqrt 2 while the Euclidean distance is 5. -/
theorem distance_comma_bug :
    Point_getDistanceRadicand ⟨0, 0⟩ ⟨0, 5⟩ = 2 ∧
    specEuclidSqDist ⟨0, 0⟩ ⟨0, 5⟩ = 25 ∧
    Point_getDistanceRadicand ⟨0, 0⟩ ⟨0, 5⟩ ≠ specEuclidSqDist ⟨0, 0⟩ ⟨0, 5⟩ := by
  norm_num [Point_getDistanceRadicand, specEuclidSqDist]

/- ## C7 -/

/-- C7: whenever the frame's paddle resolver reports a collision, the
response leaves the ball's vertical speed within three times the magnitude
of its (post-reflection) horizontal speed. -/
theorem paddle_hit_speed_y_clamped (s : GameState)
    (h : (framePaddleCol s).collides = true) :
    |(integrate s).ball.speed.y| ≤ 3 * |(integrate s).ball.speed.x| := by
  simp only [integrate, paddleResponse, h, if_true]
  exact abs_speedClampY_le _ _

end CPong

namespace CPong

/- ## C3 -/

/-- C3: in a round-loop frame with no paddle collision, a wall collision on
side LEFT increments player 2's score and leaves the round loop (gameState
is incremented), and side RIGHT does the same for player 1; in both cases
the ball's speed is unchanged and its x position is not corrected to the
wall. -/
theorem wall_left_right_scores (s : GameState)
    (hp : (framePaddleCol s).collides = false)
    (hw : (frameWallCol s).collides = true) :
    ((frameWallCol s).side = Side.LEFT →
      (integrate s).p2.score = s.p2.score + 1 ∧ (integrate s).p1.score = s.p1.score ∧
      (integrate s).gameState = s.gameState + 1 ∧
      (integrate s).ball.speed = s.ball.speed ∧
      (integrate s).ball.position.x = s.ball.position.x) ∧
    ((frameWallCol s).side = Side.RIGHT →
      (integrate s).p1.score = s.p1.score + 1 ∧ (integrate s).p2.score = s.p2.score ∧
      (integrate s).gameState = s.gameState + 1 ∧
      (integrate s).ball.speed = s.ball.speed ∧
      (integrate s).ball.position.x = s.ball.position.x) := by
  constructor <;> intro hside <;>
    simp [integrate, hp, hw, hside]

/-- Witness for C3: the spec's own scenario, a ball at (2, 300) moving with
velocity (-5, -3) whose swept vertex crosses x = 0 this frame. -/
theorem wall_left_right_scores_witness :
    (integrate ⟨⟨⟨2, 300⟩, ⟨-5, -3⟩⟩, ⟨⟨75, 250⟩, 0⟩, ⟨⟨700, 250⟩, 0⟩, 1⟩).p2.score = 1 ∧
    (integrate ⟨⟨⟨2, 300⟩, ⟨-5, -3⟩⟩, ⟨⟨75, 250⟩, 0⟩, ⟨⟨700, 250⟩, 0⟩, 1⟩).gameState = 2 ∧
    (integrate ⟨⟨⟨2, 300⟩, ⟨-5, -3⟩⟩, ⟨⟨75, 250⟩, 0⟩, ⟨⟨700, 250⟩, 0⟩, 1⟩).ball.speed = ⟨-5, -3⟩ ∧
    (integrate ⟨⟨⟨2, 300⟩, ⟨-5, -3⟩⟩, ⟨⟨75, 250⟩, 0⟩, ⟨⟨700, 250⟩, 0⟩, 1⟩).ball.position.x = 2 := by
  have hp : (framePaddleCol ⟨⟨⟨2, 300⟩, ⟨-5, -3⟩⟩, ⟨⟨75, 250⟩, 0⟩, ⟨⟨700, 250⟩, 0⟩, 1⟩).collides = false := by
    norm_num [framePaddleCol, framePaddleRes, getPaddleCollision, Ball_getBound, Paddle_getBound,
      Side.code, noCollision, BALL_SIZE, PADDLE_WIDTH]
  have hv : wallTestedVertex ⟨⟨2, 300⟩, ⟨-5, -3⟩⟩ = 0 := by
    norm_num [wallTestedVertex, wallHSide, wallVSide]
    simp
  have hwall : frameWallCol ⟨⟨⟨2, 300⟩, ⟨-5, -3⟩⟩, ⟨⟨75, 250⟩, 0⟩, ⟨⟨700, 250⟩, 0⟩, 1⟩ =
      ⟨true, ⟨0, 1494 / 5⟩, Side.LEFT⟩ := by
    have h3 : wallHSide ⟨⟨2, 300⟩, ⟨-5, -3⟩⟩ = Side.LEFT := by norm_num [wallHSide]
    norm_num [frameWallCol, frameWallRes, getWallCollision, hv, h3, wallHBound, wallVBound,
      wallVSide, Ball_getVertex, noCollision, Point_getDistanceRadicand, snapBack,
      BALL_SIZE, WINDOW_WIDTH, WINDOW_HEIGHT]
  obtain ⟨h1, h2, h3, h4, h5⟩ :=
    (wall_left_right_scores _ hp (by rw [hwall])).1 (by rw [hwall])
  exact ⟨h1.trans (by norm_num), h3.trans (by norm_num), h4, h5⟩

/- ## C2 -/

/-- C2 (code bug): on a TOP wall collision with no paddle collision the
round loop inverts speed.y and increments no score, as claimed, but it
never assigns the corrected contact position that getWallCollision computed
into its out-parameter: ballNextB is dead and the ball's position is left
unchanged.  Evaluated at a ball at (100, 2) with speed (5, -4): the
resolver reports contact (245/2, 0) with corrected position (205/2, 0),
yet the integrated position stays (100, 2). -/
theorem wall_top_bounce_drops_correction :
    (framePaddleCol ⟨⟨⟨100, 2⟩, ⟨5, -4⟩⟩, ⟨⟨75, 250⟩, 0⟩, ⟨⟨700, 250⟩, 0⟩, 1⟩).collides = false ∧
    frameWallCol ⟨⟨⟨100, 2⟩, ⟨5, -4⟩⟩, ⟨⟨75, 250⟩, 0⟩, ⟨⟨700, 250⟩, 0⟩, 1⟩ =
      ⟨true, ⟨245 / 2, 0⟩, Side.TOP⟩ ∧
    (frameWallRes ⟨⟨⟨100, 2⟩, ⟨5, -4⟩⟩, ⟨⟨75, 250⟩, 0⟩, ⟨⟨700, 250⟩, 0⟩, 1⟩).2.1 = ⟨205 / 2, 0⟩ ∧
    (integrate ⟨⟨⟨100, 2⟩, ⟨5, -4⟩⟩, ⟨⟨75, 250⟩, 0⟩, ⟨⟨700, 250⟩, 0⟩, 1⟩).ball.position = ⟨100, 2⟩ ∧
    (⟨100, 2⟩ : Point) ≠ ⟨205 / 2, 0⟩ ∧
    (integrate ⟨⟨⟨100, 2⟩, ⟨5, -4⟩⟩, ⟨⟨75, 250⟩, 0⟩, ⟨⟨700, 250⟩, 0⟩, 1⟩).ball.speed = ⟨5, 4⟩ ∧
    (integrate ⟨⟨⟨100, 2⟩, ⟨5, -4⟩⟩, ⟨⟨75, 250⟩, 0⟩, ⟨⟨700, 250⟩, 0⟩, 1⟩).p1.score = 0 ∧
    (integrate ⟨⟨⟨100, 2⟩, ⟨5, -4⟩⟩, ⟨⟨75, 250⟩, 0⟩, ⟨⟨700, 250⟩, 0⟩, 1⟩).p2.score = 0 := by
  have hp : (framePaddleCol ⟨⟨⟨100, 2⟩, ⟨5, -4⟩⟩, ⟨⟨75, 250⟩, 0⟩, ⟨⟨700, 250⟩, 0⟩, 1⟩).collides = false := by
    norm_num [framePaddleCol, framePaddleRes, getPaddleCollision, Ball_getBound, Paddle_getBound,
      Side.code, noCollision, BALL_SIZE, PADDLE_WIDTH]
  have hv : wallTestedVertex ⟨⟨100, 2⟩, ⟨5, -4⟩⟩ = 1 := by
    norm_num [wallTestedVertex, wallHSide, wallVSide]
    simp
  have h3 : wallVSide ⟨⟨100, 2⟩, ⟨5, -4⟩⟩ = Side.TOP := by norm_num [wallVSide]
  have hwres : frameWallRes ⟨⟨⟨100, 2⟩, ⟨5, -4⟩⟩, ⟨⟨75, 250⟩, 0⟩, ⟨⟨700, 250⟩, 0⟩, 1⟩ =
      (⟨true, ⟨245 / 2, 0⟩, Side.TOP⟩, ⟨205 / 2, 0⟩, 1) := by
    norm_num [frameWallRes, getWallCollision, hv, h3, wallHBound, wallVBound, wallHSide,
      Ball_getVertex, noCollision, Point_getDistanceRadicand, snapBack,
      BALL_SIZE, WINDOW_WIDTH, WINDOW_HEIGHT, Point.mk.injEq, Prod.ext_iff]
  have hwall : frameWallCol ⟨⟨⟨100, 2⟩, ⟨5, -4⟩⟩, ⟨⟨75, 250⟩, 0⟩, ⟨⟨700, 250⟩, 0⟩, 1⟩ =
      ⟨true, ⟨245 / 2, 0⟩, Side.TOP⟩ := by
    rw [frameWallCol, hwres]
  refine ⟨hp, hwall, by rw [hwres], ?_, by norm_num [Point.mk.injEq], ?_, ?_, ?_⟩ <;>
    norm_num [integrate, hp, hwall, yClamp, WINDOW_HEIGHT, Point.mk.injEq]

end CPong

namespace CPong

/- ## C6 -/

/-- Counterexample for C6 as stated: a ball at (675, 280) moving right with
speed (10, 1) toward a paddle at (700, 250).  The ball's leading (RIGHT)
bound 695 has not yet reached the paddle's LEFT bound 700 nor its RIGHT
bound 725, yet getPaddleCollision reports a collision, because the sweep
crosses the paddle edge within the frame. -/
theorem broad_phase_leading_bound_cex :
    Ball_getBound ⟨⟨675, 280⟩, ⟨10, 1⟩⟩ Side.RIGHT.code = 695 ∧
    Paddle_getBound ⟨⟨700, 250⟩, 0⟩ Side.LEFT.code = 700 ∧
    Paddle_getBound ⟨⟨700, 250⟩, 0⟩ Side.RIGHT.code = 725 ∧
    (695 : ℚ) < 700 ∧ (695 : ℚ) < 725 ∧
    (getPaddleCollision ⟨⟨675, 280⟩, ⟨10, 1⟩⟩ ⟨⟨700, 250⟩, 0⟩ ⟨0, 0⟩).1.collides = true := by
  refine ⟨by norm_num [Ball_getBound, Side.code, BALL_SIZE],
    by norm_num [Paddle_getBound, Side.code],
    by norm_num [Paddle_getBound, Side.code, PADDLE_WIDTH],
    by norm_num, by norm_num, ?_⟩
  norm_num [getPaddleCollision, hLoop, vLoop, hTestOne, vTestOne, selectCol, noCollision,
    Ball_getVertex, Ball_getBound, Paddle_getBound, Point_getDistanceRadicand, snapBack,
    BALL_SIZE, PADDLE_WIDTH, PADDLE_HEIGHT, Side.code]

set_option maxHeartbeats 1000000 in
/-- C6 (amended): the broad-phase reject of getPaddleCollision fires on the
ball's trailing bound, not its leading bound: if the ball's bound on the
side opposite its direction of travel has already passed the paddle's bound
farthest in that direction, no collision is reported, regardless of any
vertical overlap; likewise on the vertical axis. -/
theorem broad_phase_reject (ball : Ball) (paddle : Paddle) (p0 : Point) :
    (ball.speed.x ≥ 0 →
      Ball_getBound ball Side.LEFT.code > Paddle_getBound paddle Side.RIGHT.code →
      (getPaddleCollision ball paddle p0).1.collides = false) ∧
    (ball.speed.x < 0 →
      Ball_getBound ball Side.RIGHT.code < Paddle_getBound paddle Side.LEFT.code →
      (getPaddleCollision ball paddle p0).1.collides = false) ∧
    (ball.speed.y ≥ 0 →
      Ball_getBound ball Side.TOP.code > Paddle_getBound paddle Side.BOTTOM.code →
      (getPaddleCollision ball paddle p0).1.collides = false) ∧
    (ball.speed.y < 0 →
      Ball_getBound ball Side.BOTTOM.code < Paddle_getBound paddle Side.TOP.code →
      (getPaddleCollision ball paddle p0).1.collides = false) := by
  refine ⟨fun h1 h2 => ?_, fun h1 h2 => ?_, fun h1 h2 => ?_, fun h1 h2 => ?_⟩
  · simp only [getPaddleCollision]
    split_ifs <;> first | exact absurd (And.intro h1 h2) (by assumption) | rfl
  · simp only [getPaddleCollision]
    split_ifs <;> first | exact absurd (And.intro (not_le.mpr h1) h2) (by assumption) | rfl
  · simp only [getPaddleCollision]
    split_ifs <;> first | exact absurd (And.intro h1 h2) (by assumption) | rfl
  · simp only [getPaddleCollision]
    split_ifs <;> first | exact absurd (And.intro (not_le.mpr h1) h2) (by assumption) | rfl

/-- Witness for C6's amended reject: a ball already past the right paddle
and still moving right reports no collision. -/
theorem broad_phase_reject_witness :
    (5 : ℚ) ≥ 0 ∧
    Ball_getBound ⟨⟨740, 300⟩, ⟨5, 1⟩⟩ Side.LEFT.code = 740 ∧
    Paddle_getBound ⟨⟨700, 250⟩, 0⟩ Side.RIGHT.code = 725 ∧
    (getPaddleCollision ⟨⟨740, 300⟩, ⟨5, 1⟩⟩ ⟨⟨700, 250⟩, 0⟩ ⟨0, 0⟩).1.collides = false :=
  ⟨by norm_num, by norm_num [Ball_getBound, Side.code],
    by norm_num [Paddle_getBound, Side.code, PADDLE_WIDTH],
    (broad_phase_reject _ _ _).1 (by norm_num)
      (by norm_num [Ball_getBound, Paddle_getBound, Side.code, PADDLE_WIDTH])⟩

end CPong

namespace CPong

lemma snapBack_vertex (c sp : Point) (v : ℤ)
    (h : v = 0 ∨ v = 1 ∨ v = 2 ∨ v = 3) :
    Ball_getVertex ⟨snapBack c v, sp⟩ v = c := by
  rcases c with ⟨cx, cy⟩
  rcases h with h | h | h | h <;> subst h <;>
    simp [snapBack, Ball_getVertex, Point.mk.injEq]

lemma hLoop_vertex_mem (ball : Ball) (paddle : Paddle) (slope : ℚ) (pSide : Side) (v0 v1 : ℤ) :
    (hLoop ball paddle slope pSide v0 v1).2 = v0 ∨ (hLoop ball paddle slope pSide v0 v1).2 = v1 := by
  unfold hLoop
  rcases h0 : hTestOne ball paddle slope pSide v0 with _ | _ | p <;> simp
  rcases h1 : hTestOne ball paddle slope pSide v1 with _ | _ | q <;> simp

lemma vLoop_vertex_mem (ball : Ball) (paddle : Paddle) (slope : ℚ) (pSide : Side) (v0 v1 : ℤ) :
    (vLoop ball paddle slope pSide v0 v1).2 = 0 ∨ (vLoop ball paddle slope pSide v0 v1).2 = v0 ∨
      (vLoop ball paddle slope pSide v0 v1).2 = v1 := by
  unfold vLoop
  split_ifs with h
  · simp
  · rcases h0 : vTestOne ball paddle slope pSide v0 with _ | _ | p <;> simp
    rcases h1 : vTestOne ball paddle slope pSide v1 with _ | _ | q <;> simp

lemma selectCol_vertex_mem (ball : Ball) (hCol vCol : Collision) (cv0 cv1 : ℤ) :
    (selectCol ball hCol vCol cv0 cv1).2 = cv0 ∨ (selectCol ball hCol vCol cv0 cv1).2 = cv1 ∨
      (selectCol ball hCol vCol cv0 cv1).2 = 0 := by
  unfold selectCol
  split_ifs <;> simp

lemma selAfterLoops_mem (ball : Ball) (paddle : Paddle) (slope : ℚ) (s0 s1 : Side)
    (a b c d : ℤ)
    (ha : a = 0 ∨ a = 1 ∨ a = 2 ∨ a = 3) (hb : b = 0 ∨ b = 1 ∨ b = 2 ∨ b = 3)
    (hc : c = 0 ∨ c = 1 ∨ c = 2 ∨ c = 3) (hd : d = 0 ∨ d = 1 ∨ d = 2 ∨ d = 3) :
    (selectCol ball (hLoop ball paddle slope s0 a b).1 (vLoop ball paddle slope s1 c d).1
        (hLoop ball paddle slope s0 a b).2 (vLoop ball paddle slope s1 c d).2).2 = 0 ∨
      (selectCol ball (hLoop ball paddle slope s0 a b).1 (vLoop ball paddle slope s1 c d).1
        (hLoop ball paddle slope s0 a b).2 (vLoop ball paddle slope s1 c d).2).2 = 1 ∨
      (selectCol ball (hLoop ball paddle slope s0 a b).1 (vLoop ball paddle slope s1 c d).1
        (hLoop ball paddle slope s0 a b).2 (vLoop ball paddle slope s1 c d).2).2 = 2 ∨
      (selectCol ball (hLoop ball paddle slope s0 a b).1 (vLoop ball paddle slope s1 c d).1
        (hLoop ball paddle slope s0 a b).2 (vLoop ball paddle slope s1 c d).2).2 = 3 := by
  rcases selectCol_vertex_mem ball (hLoop ball paddle slope s0 a b).1
      (vLoop ball paddle slope s1 c d).1 (hLoop ball paddle slope s0 a b).2
      (vLoop ball paddle slope s1 c d).2 with h | h | h <;> rw [h]
  · rcases hLoop_vertex_mem ball paddle slope s0 a b with h' | h' <;> rw [h']
    · exact ha
    · exact hb
  · rcases vLoop_vertex_mem ball paddle slope s1 c d with h' | h' | h' <;> rw [h']
    · norm_num
    · exact hc
    · exact hd
  · norm_num

lemma wallTestedVertex_mem (ball : Ball) :
    wallTestedVertex ball = 0 ∨ wallTestedVertex ball = 1 ∨ wallTestedVertex ball = 2 ∨
      wallTestedVertex ball = 3 := by
  unfold wallTestedVertex
  split_ifs <;> norm_num

set_option maxHeartbeats 1600000 in
lemma getPaddleCollision_spec (ball : Ball) (paddle : Paddle) (p0 : Point) :
    (getPaddleCollision ball paddle p0).1.collides = false ∨
    ((getPaddleCollision ball paddle p0).2.1 =
        snapBack (getPaddleCollision ball paddle p0).1.position
          (getPaddleCollision ball paddle p0).2.2 ∧
      ((getPaddleCollision ball paddle p0).2.2 = 0 ∨ (getPaddleCollision ball paddle p0).2.2 = 1 ∨
        (getPaddleCollision ball paddle p0).2.2 = 2 ∨ (getPaddleCollision ball paddle p0).2.2 = 3)) := by
  simp only [getPaddleCollision]
  split_ifs <;>
    first
      | (left; rfl)
      | (right;
          exact ⟨rfl, selAfterLoops_mem ball paddle _ _ _ _ _ _ _
            (by norm_num) (by norm_num) (by norm_num) (by norm_num)⟩)
      | (left; simp_all)

set_option maxHeartbeats 1600000 in
lemma getWallCollision_spec (ball : Ball) (p0 : Point) :
    (getWallCollision ball p0).1.collides = false ∨
    ((getWallCollision ball p0).2.1 =
        snapBack (getWallCollision ball p0).1.position (getWallCollision ball p0).2.2 ∧
      ((getWallCollision ball p0).2.2 = 0 ∨ (getWallCollision ball p0).2.2 = 1 ∨
        (getWallCollision ball p0).2.2 = 2 ∨ (getWallCollision ball p0).2.2 = 3)) := by
  simp only [getWallCollision]
  split_ifs <;>
    first
      | (left; rfl)
      | (right; exact ⟨rfl, wallTestedVertex_mem ball⟩)
      | (left; simp_all)

/-- C8: whenever either resolver reports a collision, the corrected
position written to the out-parameter places the colliding vertex exactly
at the reported contact point: reading that vertex of a ball whose top-left
position is the corrected position yields Collision.position. -/
theorem snap_to_contact (ball : Ball) (paddle : Paddle) (p0 : Point) :
    ((getPaddleCollision ball paddle p0).1.collides = true →
      Ball_getVertex ⟨(getPaddleCollision ball paddle p0).2.1, ⟨0, 0⟩⟩
          (getPaddleCollision ball paddle p0).2.2 =
        (getPaddleCollision ball paddle p0).1.position) ∧
    ((getWallCollision ball p0).1.collides = true →
      Ball_getVertex ⟨(getWallCollision ball p0).2.1, ⟨0, 0⟩⟩ (getWallCollision ball p0).2.2 =
        (getWallCollision ball p0).1.position) := by
  constructor
  · intro h
    rcases getPaddleCollision_spec ball paddle p0 with hf | ⟨hs, hm⟩
    · rw [h] at hf; exact absurd hf (by simp)
    · rw [hs]; exact snapBack_vertex _ _ _ hm
  · intro h
    rcases getWallCollision_spec ball p0 with hf | ⟨hs, hm⟩
    · rw [h] at hf; exact absurd hf (by simp)
    · rw [hs]; exact snapBack_vertex _ _ _ hm


/-- Witness for C8: the paddle conjunct at a ball sweeping into the right
paddle, the wall conjunct at a ball sweeping into the top wall. -/
theorem snap_to_contact_witness :
    Ball_getVertex ⟨(getPaddleCollision ⟨⟨675, 280⟩, ⟨10, 1⟩⟩ ⟨⟨700, 250⟩, 0⟩ ⟨0, 0⟩).2.1, ⟨0, 0⟩⟩
        (getPaddleCollision ⟨⟨675, 280⟩, ⟨10, 1⟩⟩ ⟨⟨700, 250⟩, 0⟩ ⟨0, 0⟩).2.2 =
      (getPaddleCollision ⟨⟨675, 280⟩, ⟨10, 1⟩⟩ ⟨⟨700, 250⟩, 0⟩ ⟨0, 0⟩).1.position ∧
    Ball_getVertex ⟨(getWallCollision ⟨⟨100, 2⟩, ⟨5, -4⟩⟩ ⟨0, 0⟩).2.1, ⟨0, 0⟩⟩
        (getWallCollision ⟨⟨100, 2⟩, ⟨5, -4⟩⟩ ⟨0, 0⟩).2.2 =
      (getWallCollision ⟨⟨100, 2⟩, ⟨5, -4⟩⟩ ⟨0, 0⟩).1.position := by
  constructor
  · refine (snap_to_contact ⟨⟨675, 280⟩, ⟨10, 1⟩⟩ ⟨⟨700, 250⟩, 0⟩ ⟨0, 0⟩).1 ?_
    norm_num [getPaddleCollision, hLoop, vLoop, hTestOne, vTestOne, selectCol, noCollision,
      Ball_getVertex, Ball_getBound, Paddle_getBound, Point_getDistanceRadicand, snapBack,
      BALL_SIZE, PADDLE_WIDTH, PADDLE_HEIGHT, Side.code]
  · refine (snap_to_contact ⟨⟨100, 2⟩, ⟨5, -4⟩⟩ ⟨⟨700, 250⟩, 0⟩ ⟨0, 0⟩).2 ?_
    have hv : wallTestedVertex ⟨⟨100, 2⟩, ⟨5, -4⟩⟩ = 1 := by
      norm_num [wallTestedVertex, wallHSide, wallVSide]
      simp
    norm_num [getWallCollision, hv, wallHBound, wallVBound, wallHSide, wallVSide,
      Ball_getVertex, noCollision, Point_getDistanceRadicand, snapBack,
      BALL_SIZE, WINDOW_WIDTH, WINDOW_HEIGHT]

end CPong

namespace CPong

lemma leadingVertex_eq_tested (ball : Ball) : leadingVertex ball = wallTestedVertex ball := by
  unfold leadingVertex wallTestedVertex wallHSide wallVSide
  by_cases hx : ball.speed.x ≥ 0 <;> by_cases hy : ball.speed.y ≥ 0 <;> simp [hx, hy]

lemma towardXBound_eq (ball : Ball) : towardXBound ball = wallHBound ball := by
  unfold towardXBound wallHBound WINDOW_WIDTH
  split_ifs <;> rfl

lemma towardYBound_eq (ball : Ball) : towardYBound ball = wallVBound ball := by
  unfold towardYBound wallVBound WINDOW_HEIGHT
  split_ifs <;> rfl

set_option maxHeartbeats 1600000 in
/-- C1 (amended): for a non-zero horizontal speed, getWallCollision reports
a collision exactly when the swept segment of the leading vertex crosses
the arena boundary lying in the ball's horizontal direction of travel or
the one lying in its vertical direction of travel (not an arbitrary one of
the four boundaries); any reported contact point lies exactly on the
boundary line of the reported side. -/
theorem wall_collision_iff_crossing (ball : Ball) (h : ball.speed.x ≠ 0) :
    ((getWallCollision ball ⟨0, 0⟩).1.collides = true ↔
      (segCrossesX (Ball_getVertex ball (leadingVertex ball)) ball.speed (towardXBound ball) ∨
       segCrossesY (Ball_getVertex ball (leadingVertex ball)) ball.speed (towardYBound ball))) ∧
    ((getWallCollision ball ⟨0, 0⟩).1.collides = true →
      (((getWallCollision ball ⟨0, 0⟩).1.side = Side.LEFT →
          (getWallCollision ball ⟨0, 0⟩).1.position.x = 0) ∧
       ((getWallCollision ball ⟨0, 0⟩).1.side = Side.RIGHT →
          (getWallCollision ball ⟨0, 0⟩).1.position.x = 800) ∧
       ((getWallCollision ball ⟨0, 0⟩).1.side = Side.TOP →
          (getWallCollision ball ⟨0, 0⟩).1.position.y = 0) ∧
       ((getWallCollision ball ⟨0, 0⟩).1.side = Side.BOTTOM →
          (getWallCollision ball ⟨0, 0⟩).1.position.y = 600))) := by
  rw [leadingVertex_eq_tested, towardXBound_eq, towardYBound_eq]
  simp only [getWallCollision, segCrossesX, segCrossesY]
  rw [if_neg h]
  dsimp only
  by_cases hH : min (Ball_getVertex ball (wallTestedVertex ball)).x
      ((Ball_getVertex ball (wallTestedVertex ball)).x + ball.speed.x) ≤ wallHBound ball ∧
      wallHBound ball ≤ max (Ball_getVertex ball (wallTestedVertex ball)).x
      ((Ball_getVertex ball (wallTestedVertex ball)).x + ball.speed.x) <;>
    by_cases hV : min (Ball_getVertex ball (wallTestedVertex ball)).y
      ((Ball_getVertex ball (wallTestedVertex ball)).y + ball.speed.y) ≤ wallVBound ball ∧
      wallVBound ball ≤ max (Ball_getVertex ball (wallTestedVertex ball)).y
      ((Ball_getVertex ball (wallTestedVertex ball)).y + ball.speed.y) <;>
    simp only [hH, hV, if_true, if_false, ite_true, ite_false, noCollision] <;>
    split_ifs <;>
    constructor <;>
    try simp [hH, hV]
  all_goals
    by_cases hx : ball.speed.x ≥ 0 <;> by_cases hy : ball.speed.y ≥ 0 <;>
      try simp [wallHSide, wallVSide, wallHBound, wallVBound, WINDOW_WIDTH, WINDOW_HEIGHT, hx, hy]
  all_goals simp_all

end CPong

namespace CPong

/-- Counterexample for C1 as stated: a ball partially out of bounds at
(-22, 300) moving with speed (5, 1).  Its leading vertex (-2, 320) sweeps
across the arena boundary x = 0 within the frame, yet getWallCollision
reports no collision, because only the boundaries in the direction of
travel (x = 800 and y = 600 here) are tested. -/
theorem wall_boundary_crossing_missed_cex :
    leadingVertex ⟨⟨-22, 300⟩, ⟨5, 1⟩⟩ = 2 ∧
    Ball_getVertex ⟨⟨-22, 300⟩, ⟨5, 1⟩⟩ 2 = ⟨-2, 320⟩ ∧
    segCrossesX ⟨-2, 320⟩ ⟨5, 1⟩ 0 ∧
    (getWallCollision ⟨⟨-22, 300⟩, ⟨5, 1⟩⟩ ⟨0, 0⟩).1.collides = false := by
  refine ⟨by norm_num [leadingVertex], by norm_num [Ball_getVertex, BALL_SIZE, Point.mk.injEq],
    by constructor <;> norm_num [min_def, max_def], ?_⟩
  have hv : wallTestedVertex ⟨⟨-22, 300⟩, ⟨5, 1⟩⟩ = 2 := by
    norm_num [wallTestedVertex, wallHSide, wallVSide]
  norm_num [getWallCollision, hv, wallHBound, wallVBound, wallHSide, wallVSide,
    Ball_getVertex, noCollision, Point_getDistanceRadicand, snapBack,
    BALL_SIZE, WINDOW_WIDTH, WINDOW_HEIGHT]

/-- Witness for C1's amended theorem at a ball at (200, 3) with speed
(4, -5), whose leading vertex sweep crosses the top wall. -/
theorem wall_collision_iff_crossing_witness :
    (((getWallCollision ⟨⟨200, 3⟩, ⟨4, -5⟩⟩ ⟨0, 0⟩).1.collides = true ↔
      (segCrossesX (Ball_getVertex ⟨⟨200, 3⟩, ⟨4, -5⟩⟩ (leadingVertex ⟨⟨200, 3⟩, ⟨4, -5⟩⟩))
          (⟨4, -5⟩ : Point) (towardXBound ⟨⟨200, 3⟩, ⟨4, -5⟩⟩) ∨
       segCrossesY (Ball_getVertex ⟨⟨200, 3⟩, ⟨4, -5⟩⟩ (leadingVertex ⟨⟨200, 3⟩, ⟨4, -5⟩⟩))
          (⟨4, -5⟩ : Point) (towardYBound ⟨⟨200, 3⟩, ⟨4, -5⟩⟩))) ∧
    ((getWallCollision ⟨⟨200, 3⟩, ⟨4, -5⟩⟩ ⟨0, 0⟩).1.collides = true →
      (((getWallCollision ⟨⟨200, 3⟩, ⟨4, -5⟩⟩ ⟨0, 0⟩).1.side = Side.LEFT →
          (getWallCollision ⟨⟨200, 3⟩, ⟨4, -5⟩⟩ ⟨0, 0⟩).1.position.x = 0) ∧
       ((getWallCollision ⟨⟨200, 3⟩, ⟨4, -5⟩⟩ ⟨0, 0⟩).1.side = Side.RIGHT →
          (getWallCollision ⟨⟨200, 3⟩, ⟨4, -5⟩⟩ ⟨0, 0⟩).1.position.x = 800) ∧
       ((getWallCollision ⟨⟨200, 3⟩, ⟨4, -5⟩⟩ ⟨0, 0⟩).1.side = Side.TOP →
          (getWallCollision ⟨⟨200, 3⟩, ⟨4, -5⟩⟩ ⟨0, 0⟩).1.position.y = 0) ∧
       ((getWallCollision ⟨⟨200, 3⟩, ⟨4, -5⟩⟩ ⟨0, 0⟩).1.side = Side.BOTTOM →
          (getWallCollision ⟨⟨200, 3⟩, ⟨4, -5⟩⟩ ⟨0, 0⟩).1.position.y = 600)))) :=
  wall_collision_iff_crossing ⟨⟨200, 3⟩, ⟨4, -5⟩⟩ (by norm_num)

end CPong

namespace CPong

/-- Witness for C7 at a ball sweeping into the right paddle's LEFT edge. -/
theorem paddle_hit_speed_y_clamped_witness :
    |(integrate ⟨⟨⟨675, 280⟩, ⟨10, 1⟩⟩, ⟨⟨75, 250⟩, 0⟩, ⟨⟨700, 250⟩, 0⟩, 1⟩).ball.speed.y| ≤
      3 * |(integrate ⟨⟨⟨675, 280⟩, ⟨10, 1⟩⟩, ⟨⟨75, 250⟩, 0⟩, ⟨⟨700, 250⟩, 0⟩, 1⟩).ball.speed.x| :=
  paddle_hit_speed_y_clamped _ (by
    norm_num [framePaddleCol, framePaddleRes, getPaddleCollision, hLoop, vLoop, hTestOne, vTestOne,
      selectCol, noCollision, Ball_getVertex, Ball_getBound, Paddle_getBound,
      Point_getDistanceRadicand, snapBack, BALL_SIZE, PADDLE_WIDTH, PADDLE_HEIGHT, Side.code])

end CPong
